import Mathlib

/-!
Verification of the moderation-and-recovery engine (moderation.py,
recovery_system.py, database.py, config.py) against its specification.

Text is modelled as `List Char`.  Python's `str` helpers (`lower`,
`isupper`, `isalnum`, `isdigit`, `strip`, `split`) are embedded over the
character repertoire the program actually handles: ASCII plus the Cyrillic
block used by the pattern tables and the test inputs.  Real-valued scores
are modelled exactly over `ℚ`; every decimal literal of the source is an
exact rational here.
-/

namespace MamaAI

/-- Python `str.lower` restricted to ASCII letters and Cyrillic А-Я / Ё. -/
def pyLower (c : Char) : Char :=
  let n := c.toNat
  if 65 ≤ n ∧ n ≤ 90 then Char.ofNat (n + 32)
  else if 0x410 ≤ n ∧ n ≤ 0x42F then Char.ofNat (n + 32)
  else if n = 0x401 then Char.ofNat 0x451
  else c

/-- Python `str.isupper` per character (ASCII A-Z, Cyrillic А-Я, Ё). -/
def pyIsUpper (c : Char) : Bool :=
  let n := c.toNat
  (65 ≤ n && n ≤ 90) || (0x410 ≤ n && n ≤ 0x42F) || n == 0x401

/-- Lowercase letters of the modelled repertoire. -/
def pyIsLower (c : Char) : Bool :=
  let n := c.toNat
  (97 ≤ n && n ≤ 122) || (0x430 ≤ n && n ≤ 0x44F) || n == 0x451

/-- Alphabetic characters of the modelled repertoire. -/
def pyIsAlpha (c : Char) : Bool :=
  pyIsUpper c || pyIsLower c

/-- Python `str.isdigit` restricted to ASCII digits. -/
def pyIsDigit (c : Char) : Bool :=
  let n := c.toNat
  48 ≤ n && n ≤ 57

/-- Python `str.isalnum` over the modelled repertoire. -/
def pyIsAlnum (c : Char) : Bool :=
  pyIsAlpha c || pyIsDigit c

/-- Python `str.isspace` (the ASCII whitespace characters). -/
def pyIsSpace (c : Char) : Bool :=
  let n := c.toNat
  n == 32 || n == 9 || n == 10 || n == 13 || n == 11 || n == 12

/-- Python `str.strip`: drop leading and trailing whitespace. -/
def pyStrip (l : List Char) : List Char :=
  ((l.dropWhile pyIsSpace).reverse.dropWhile pyIsSpace).reverse

/-- Auxiliary for `pySplit`: `acc` holds the current word reversed. -/
def pySplitAux : List Char → List Char → List (List Char)
  | [], acc => if acc.isEmpty then [] else [acc.reverse]
  | c :: rest, acc =>
    if pyIsSpace c then
      if acc.isEmpty then pySplitAux rest []
      else acc.reverse :: pySplitAux rest []
    else pySplitAux rest (c :: acc)

/-- Python `str.split()` with no argument: split on whitespace runs,
dropping empty tokens. -/
def pySplit (l : List Char) : List (List Char) := pySplitAux l []

/-- Does `needle` occur as a contiguous substring of `hay`?
Models `needle in hay` / `re.search` of a literal. -/
def containsSub (hay needle : List Char) : Bool :=
  if needle.isPrefixOf hay then true
  else
    match hay with
    | [] => false
    | _ :: t => containsSub t needle

/-- Does some element of `subs` occur in `hay`?  Models a regex that is a
plain alternation of literals. -/
def anySub (hay : List Char) (subs : List String) : Bool :=
  subs.any (fun s => containsSub hay s.toList)

/-- Auxiliary: is there a run of at least `k` consecutive characters
satisfying `p`, given `cnt` already-matched immediately preceding ones? -/
def hasRunAux (p : Char → Bool) (k : ℕ) : List Char → ℕ → Bool
  | [], cnt => decide (k ≤ cnt)
  | c :: t, cnt =>
    if p c then decide (k ≤ cnt + 1) || hasRunAux p k t (cnt + 1)
    else hasRunAux p k t 0

/-- Is there a run of at least `k` consecutive characters satisfying `p`?
Models `re.search` of a `{k,}`-quantified character class. -/
def hasRun (p : Char → Bool) (k : ℕ) (l : List Char) : Bool :=
  hasRunAux p k l 0

/-- ASCII letters, either case (a `[A-Z]`/`[a-z]` class under
`re.IGNORECASE`). -/
def isAsciiAlpha (c : Char) : Bool :=
  let n := c.toNat
  (65 ≤ n && n ≤ 90) || (97 ≤ n && n ≤ 122)

/-- Is there an `@` immediately followed by a word character?  Models
`re.search` of `@[\w]+`. -/
def atWordChar : List Char → Bool
  | [] => false
  | c :: rest =>
    (c == '@' &&
      (match rest with
       | d :: _ => pyIsAlnum d || d == '_'
       | [] => false)) ||
    atWordChar rest

/-- Is there a `.` immediately followed by two letters?  Models
`re.search` of `\.[a-z]{2,}` under `re.IGNORECASE`. -/
def dotTwoAlpha : List Char → Bool
  | [] => false
  | c :: rest =>
    (c == '.' &&
      (match rest with
       | a :: b :: _ => isAsciiAlpha a && isAsciiAlpha b
       | _ => false)) ||
    dotTwoAlpha rest

/-- The fixed emoji set of `moderation.py` (the class
`[💵💰🤑📈👇❤️🔥⭐✨🎁🎉]`; `❤️` contributes the heart and the variation
selector as two members). -/
def emojiChars : List Char := "💵💰🤑📈👇❤️🔥⭐✨🎁🎉".toList

/-- Table `AdvancedSpamDetector.spam_patterns` (moderation.py lines 27-58):
each regex as a predicate on the lowered text, with its weight.  Every
rule is a plain alternation of literals except the four class-based ones,
which are embedded structurally. -/
def spam_patterns : List ((List Char → Bool) × ℚ) :=
  [ (fun t => anySub t ["купить", "продам", "продажа", "покупка", "заказ",
      "цена", "стоимость", "оплата", "доставка"], 2),
    (fun t => anySub t ["рубл", "₽", "р.", "руб", "цена", "стоим", "цена"], 3/2),
    (fun t => anySub t ["казин", "ставк", "покер", "рулетк", "букмекер",
      "тотализатор"], 3),
    (fun t => anySub t ["кредит", "заём", "деньги в долг", "микрозайм",
      "ипотек"], 5/2),
    (fun t => anySub t ["инвест", "акци", "акция", "дивиденд", "трейд"], 2),
    (fun t => anySub t ["форекс", "forex", "трейдинг", "трейдер", "биржа",
      "актив", "инвест"], 2),
    (fun t => anySub t ["бесплатн", "деньг", "денег", "заработок", "прибыль",
      "доход"], 3/2),
    (fun t => anySub t ["подписывайся", "подпишись", "канал", "группа",
      "паблик", "telegram"], 2),
    (fun t => anySub t ["бесплатно", "даром", "акция", "скидка", "распродаж",
      "промокод"], 3/2),
    (fun t => anySub t ["реклам", "продвижен", "раскрутк"], 2),
    (fun t => anySub t ["выигр", "приз", "розыгрыш", "лотере", "подарок"], 2),
    (fun t => anySub t ["гаранти", "100%", "результат", "быстро"], 3/2),
    (fun t => anySub t ["секс", "знакомств", "встреч", "интим"], 3),
    (fun t => anySub t ["http", "https", "t.me", "www."] || atWordChar t ||
      dotTwoAlpha t, 2),
    (fun t => hasRun pyIsDigit 10 t || anySub t ["телефон", "номер", "звон"],
      3/2),
    (fun t => t.any (fun c => emojiChars.contains c), 1),
    (fun t => hasRun (fun c => c == '!') 3 t || hasRun (fun c => c == '?') 3 t,
      1/2),
    (fun t => hasRun isAsciiAlpha 5 t, 1) ]

/-- Table `AdvancedSpamDetector.hard_spam_phrases`. -/
def hard_spam_phrases : List String :=
  [ "заработок без вложений", "быстрые деньги", "работа на дому",
    "стабильный доход", "пассивный заработок", "инвестируй и богатей",
    "проверенный способ", "секретная методика", "только сегодня",
    "успей получить" ]

/-- Table `AdvancedSpamDetector.whitelist_phrases`. -/
def whitelist_phrases : List String :=
  [ "спасибо", "благодарю", "привет", "здравствуйте",
    "интересно", "полезно", "понравилось", "класс",
    "вопрос", "помогите", "подскажите", "объясните",
    "уточнение", "дополнение", "согласен", "не согласен" ]

/-- Embeds `AdvancedSpamDetector.pattern_based_analysis`: +5 per hard phrase,
plus the weight of each matching rule, −1 per whitelist phrase, floored
at 0. -/
def pattern_based_analysis (text : List Char) : ℚ :=
  let tl := text.map pyLower
  let s1 : ℚ := hard_spam_phrases.foldl
    (fun acc p => if containsSub tl p.toList then acc + 5 else acc) 0
  let s2 : ℚ := spam_patterns.foldl
    (fun acc pw => if pw.1 tl then acc + pw.2 else acc) s1
  let s3 : ℚ := whitelist_phrases.foldl
    (fun acc p => if containsSub tl p.toList then acc - 1 else acc) s2
  max 0 s3

/-- The record built by `AdvancedSpamDetector.calculate_text_metrics`. -/
structure TextMetricsR where
  length : ℕ
  word_count : ℕ
  avg_word_length : ℚ
  caps_ratio : ℚ
  special_chars_ratio : ℚ
  digit_ratio : ℚ
  emoji_count : ℕ
  repetition_score : ℚ
  suspicious_words : ℕ
  deriving Repr, DecidableEq

/-- Embeds `AdvancedSpamDetector._calculate_repetition_score`. -/
def calculate_repetition_score (text : List Char) : ℚ :=
  let ws := pySplit (text.map pyLower)
  if ws.length < 3 then 0
  else
    let maxFreq := (ws.map (fun w => (ws.filter (fun v => v == w)).length)).foldr max 0
    min 1 ((maxFreq : ℚ) / ws.length * 3)

/-- Embeds `AdvancedSpamDetector.calculate_text_metrics`. -/
def calculate_text_metrics (text : List Char) : TextMetricsR :=
  let ws := pySplit text
  { length := text.length
    word_count := ws.length
    avg_word_length := ((ws.map List.length).sum : ℚ) / (max 1 ws.length : ℕ)
    caps_ratio := (text.countP pyIsUpper : ℚ) / (max 1 text.length : ℕ)
    special_chars_ratio :=
      (text.countP (fun c => !pyIsAlnum c && !pyIsSpace c) : ℚ) /
        (max 1 text.length : ℕ)
    digit_ratio := (text.countP pyIsDigit : ℚ) / (max 1 text.length : ℕ)
    emoji_count := text.countP (fun c => emojiChars.contains c)
    repetition_score := calculate_repetition_score text
    suspicious_words := 0 }

/-- Embeds `AdvancedModeration._calculate_metrics_score`: the heuristic penalty
sum over the metric thresholds. -/
def calculate_metrics_score (m : TextMetricsR) : ℚ :=
  (if m.length < 10 then 1 else 0) +
  (if m.caps_ratio > 1/2 then 2 else 0) +
  (if m.special_chars_ratio > 3/10 then 1 else 0) +
  (if m.digit_ratio > 1/5 then 1 else 0) +
  (if m.emoji_count > 3 then 1 else 0) +
  (if m.repetition_score > 1/2 then 2 else 0)

/-- One sender's entry of `AdvancedSpamDetector.user_behavior`
(the defaultdict of moderation.py lines 15-21).  Timestamps are rational
seconds; `datetime` differences become subtraction. -/
structure UserData where
  message_count : ℕ
  spam_count : ℕ
  last_activity : Option ℚ
  trust_score : ℤ
  warning_count : ℕ
  deriving Repr, DecidableEq

/-- The defaultdict default: fresh sender, trust 50, no activity. -/
def defaultUserData : UserData :=
  { message_count := 0, spam_count := 0, last_activity := none
    trust_score := 50, warning_count := 0 }

/-- State of `AdvancedSpamDetector`: the mutable per-sender map, as a total function
(the defaultdict yields `defaultUserData` on first access). -/
structure DetectorState where
  userBehavior : ℕ → UserData

/-- The detector state of a fresh `AdvancedSpamDetector`. -/
def DetectorState.initial : DetectorState := ⟨fun _ => defaultUserData⟩

/-- Point update of the per-sender map. -/
def DetectorState.setUser (st : DetectorState) (uid : ℕ) (d : UserData) :
    DetectorState :=
  ⟨fun v => if v = uid then d else st.userBehavior v⟩

/-- Embeds `AdvancedSpamDetector.behavioral_analysis` (moderation.py 137-163):
returns the behaviour score and the mutated state.  First message from a
sender initialises `last_activity` and sets `message_count` to 1 with
score 0; afterwards the score is +2 for a gap under 10 s, +1 under 30 s,
−1 for a sender with `trust_score > 70`, else 0. -/
def behavioral_analysis (uid : ℕ) (now : ℚ) (st : DetectorState) :
    ℚ × DetectorState :=
  let u := st.userBehavior uid
  match u.last_activity with
  | none =>
    (0, st.setUser uid { u with last_activity := some now, message_count := 1 })
  | some last =>
    let timeDiff := now - last
    let u' := { u with last_activity := some now,
                       message_count := u.message_count + 1 }
    let st' := st.setUser uid u'
    if timeDiff < 10 then (2, st')
    else if timeDiff < 30 then (1, st')
    else if u.trust_score > 70 then (-1, st')
    else (0, st')

/-- Embeds `AdvancedSpamDetector.update_user_trust_score` (moderation.py
165-175): spam costs 20 trust (floor 0) and bumps spam+warning counters;
a clean verdict restores 1 trust (cap 100). -/
def update_user_trust_score (uid : ℕ) (isSpam : Bool) (st : DetectorState) :
    DetectorState :=
  let u := st.userBehavior uid
  if isSpam then
    st.setUser uid
      { u with spam_count := u.spam_count + 1,
               trust_score := max 0 (u.trust_score - 20),
               warning_count := u.warning_count + 1 }
  else
    st.setUser uid { u with trust_score := min 100 (u.trust_score + 1) }

/-- Embeds `AdvancedSpamDetector.get_user_trust_level` (moderation.py 177-187). -/
def get_user_trust_level (uid : ℕ) (st : DetectorState) : String :=
  let score := (st.userBehavior uid).trust_score
  if score ≥ 80 then "trusted"
  else if score ≥ 50 then "neutral"
  else if score ≥ 20 then "suspicious"
  else "banned"

/-- Counters of `AdvancedModeration.stats`. -/
structure ModStats where
  total_checked : ℕ
  spam_detected : ℕ
  false_positives : ℕ
  ai_checks : ℕ
  deriving Repr, DecidableEq

/-- The zeroed statistics of a fresh `AdvancedModeration`. -/
def ModStats.initial : ModStats := ⟨0, 0, 0, 0⟩

/-- The mutable state of `AdvancedModeration` relevant to spam checks. -/
structure ModState where
  detector : DetectorState
  stats : ModStats

/-- The state of a freshly constructed `AdvancedModeration`. -/
def ModState.initial : ModState := ⟨DetectorState.initial, ModStats.initial⟩

/-- The threshold table of `advanced_spam_check` (moderation.py 264-269). -/
def thresholds : List (String × ℚ) :=
  [("trusted", 4), ("neutral", 3), ("suspicious", 2), ("banned", 1)]

/-- Lookup `thresholds.get(user_trust, 3.0)`. -/
def threshold_for (tier : String) : ℚ :=
  ((thresholds.find? (fun p => p.1 == tier)).map Prod.snd).getD 3

/-- The combined score of step 4 of `advanced_spam_check` (moderation.py
252-256), before any AI escalation. -/
def pre_total_score (text : List Char) (uid : ℕ) (now : ℚ) (st : ModState) :
    ℚ :=
  pattern_based_analysis text * (6/10) +
  (behavioral_analysis uid now st.detector).1 * (3/10) +
  calculate_metrics_score (calculate_text_metrics text) * (1/10)

/-- Embeds `AdvancedModeration.advanced_spam_check` (moderation.py 234-288).
`ai` is the verdict the external classifier would return if consulted
(`ai_spam_check`; a classifier failure is absorbed there as `False`).
Returns the `(is_spam, total_score)` pair and the mutated state. -/
def advanced_spam_check (ai : Bool) (text : List Char) (uid : ℕ) (now : ℚ)
    (st : ModState) : (Bool × ℚ) × ModState :=
  let st0 : ModState :=
    { st with stats := { st.stats with
        total_checked := st.stats.total_checked + 1 } }
  if text.isEmpty || (pyStrip text).length < 2 then ((false, 0), st0)
  else
    let bRes := behavioral_analysis uid now st0.detector
    let total := pre_total_score text uid now st
    let tier := get_user_trust_level uid bRes.2
    let threshold := threshold_for tier
    let isSpam0 := decide (total ≥ threshold)
    let inBand := decide (2 ≤ total) && decide (total ≤ 4)
    let stats1 := if inBand
      then { st0.stats with ai_checks := st0.stats.ai_checks + 1 }
      else st0.stats
    let isSpam1 := if inBand && ai then true else isSpam0
    let total1 := if inBand && ai then max total (41/10) else total
    let det2 := update_user_trust_score uid isSpam1 bRes.2
    let stats2 := if isSpam1
      then { stats1 with spam_detected := stats1.spam_detected + 1 }
      else stats1
    ((isSpam1, total1), ⟨det2, stats2⟩)

/-- Constant `Config.USER_RATE_LIMIT` (config.py line 28). -/
def USER_RATE_LIMIT : ℕ := 5

/-- Embeds `RateLimiter.check_limit` (moderation.py 194-206): prune timestamps
not strictly newer than one minute ago, store the pruned list, and admit
while fewer than `USER_RATE_LIMIT` remain. -/
def check_limit (now : ℚ) (l : List ℚ) : Bool × List ℚ :=
  let pruned := l.filter (fun t => decide (now - 60 < t))
  (decide (pruned.length < USER_RATE_LIMIT), pruned)

/-- Embeds `RateLimiter.record_message`'s in-memory effect (moderation.py 210):
append the current timestamp. -/
def record_message (now : ℚ) (l : List ℚ) : List ℚ := l ++ [now]

/-! ## Recovery subsystem (recovery_system.py, database.py) -/

/-- Outcome of one `bot.send_message` call, as discriminated by the
`except` clauses of `MessageRecoverySystem._try_send_reply`:
`forbidden` is `telegram.error.Forbidden` (recipient unreachable /
blocked — a permanent failure), `otherError` is any other exception
(network error, timeout — a transient failure). -/
inductive SendResult where
  | success
  | forbidden
  | otherError
  deriving Repr, DecidableEq

/-- Embeds `MessageRecoverySystem._try_send_reply` (recovery_system.py 205-242).
`oracle n` is the outcome the delivery channel would give to the n-th
attempt (0-based).  The code makes exactly one `send_message` call and
returns `True` only on success; both exception classes are logged and
produce `False`.  The second component counts the attempts consumed. -/
def try_send_reply (oracle : ℕ → SendResult) : Bool × ℕ :=
  match oracle 0 with
  | .success => (true, 1)
  | .forbidden => (false, 1)
  | .otherError => (false, 1)

/-- A row of `message_history` as consumed by the recovery loop
(the fields `force_recovery` reads via `msg.get`).  `isSpamField` and
`responseText` are NULLable; a candidate is unprocessed iff both are
NULL.  The `processed_at` audit timestamp is elided. -/
structure MsgRow where
  msgId : ℕ
  userId : ℕ
  text : List Char
  username : Option String
  isSpamField : Option Bool
  responseText : Option (List Char)
  spamScore : Option ℚ
  deriving Repr, DecidableEq

/-- A row of `recovery_log` as written by `Database.log_recovery`
(database.py 424-448, full-schema branch): exactly these columns —
note there is no errors or skipped column. -/
structure RecoveryLogEntry where
  recoveryType : String
  processedCount : ℕ
  spamCount : ℕ
  totalMessages : ℕ
  success : Bool
  errorMessage : Option String
  durationSeconds : ℕ
  deriving Repr, DecidableEq

/-- The durable store visible to the recovery loop. -/
structure DbState where
  rows : List MsgRow
  recoveryLog : List RecoveryLogEntry
  deriving Repr, DecidableEq

/-- Embeds `Database.mark_message_processed` (database.py 308-337, full-schema
branch): set `is_spam`, `response_text` and `spam_score` on the row with
the given id. -/
def mark_message_processed (db : DbState) (id : ℕ) (isSpam : Bool)
    (resp : List Char) (score : ℚ) : DbState :=
  { db with rows := db.rows.map (fun r =>
      if r.msgId = id then
        { r with isSpamField := some isSpam, responseText := some resp,
                 spamScore := some score }
      else r) }

/-- Embeds `Database.log_recovery` (database.py 424-448): append one audit row. -/
def log_recovery (db : DbState) (entry : RecoveryLogEntry) : DbState :=
  { db with recoveryLog := db.recoveryLog ++ [entry] }

/-- The spam annotation `force_recovery` stores as response text
(`"Обнаружен при восстановлении (score: …)"`; the formatted numeric
suffix is elided — no claim reads it). -/
def recoveryNote : List Char := "Обнаружен при восстановлении".toList

/-- The generic fallback acknowledgment used when reply generation
yields an empty or too-short result. -/
def fallbackReply : List Char := "Спасибо за ваше сообщение! 😊".toList

/-- The four counters maintained by a recovery run's loop. -/
structure RunCounts where
  processed : ℕ
  spam : ℕ
  errors : ℕ
  skipped : ℕ
  deriving Repr, DecidableEq

/-- The external collaborators and clock readings of one recovery run:
the unprocessed candidates the store returned, the reply generator, the
delivery channel (`send m n` = outcome of attempt `n` for message `m`),
the external classifier's would-be verdict, the current time, and the
run duration the wall clock will report. -/
structure RecoveryEnv where
  unprocessed : List MsgRow
  generateReply : List Char → ℕ → List Char
  send : ℕ → ℕ → SendResult
  ai : Bool
  now : ℚ
  duration : ℕ

/-- The per-candidate body of `force_recovery` (recovery_system.py
322-391): skip already-processed rows, re-run the moderation check,
persist the verdict, and for legitimate messages generate a reply
(with fallback) and attempt delivery once. -/
def force_recovery_loop (env : RecoveryEnv) :
    List MsgRow → ModState → DbState → RunCounts →
    ModState × DbState × RunCounts
  | [], mod, db, c => (mod, db, c)
  | msg :: rest, mod, db, c =>
    if msg.isSpamField.isSome then
      force_recovery_loop env rest mod db { c with skipped := c.skipped + 1 }
    else if msg.responseText.isSome then
      force_recovery_loop env rest mod db { c with skipped := c.skipped + 1 }
    else
      let res := advanced_spam_check env.ai msg.text msg.userId env.now mod
      let isSpam := res.1.1
      let score := res.1.2
      let mod' := res.2
      if isSpam then
        force_recovery_loop env rest mod'
          (mark_message_processed db msg.msgId true recoveryNote score)
          { c with spam := c.spam + 1 }
      else
        let reply0 := env.generateReply msg.text msg.userId
        let reply := if reply0.isEmpty || (pyStrip reply0).length < 3
          then fallbackReply else reply0
        let db' := mark_message_processed db msg.msgId false reply score
        if (try_send_reply (env.send msg.msgId)).1 then
          force_recovery_loop env rest mod' db'
            { c with processed := c.processed + 1 }
        else
          force_recovery_loop env rest mod' db'
            { c with errors := c.errors + 1 }

/-- The `stats` dict of `force_recovery`'s success result
(recovery_system.py 406-418). -/
structure RunStats where
  total_messages : ℕ
  processed : ℕ
  spam_detected : ℕ
  errors : ℕ
  skipped : ℕ
  success_rate : ℚ
  duration_seconds : ℕ
  deriving Repr, DecidableEq

/-- The dict returned by `force_recovery`. -/
structure RecoveryResult where
  success : Bool
  message : String
  stats : Option RunStats
  deriving Repr, DecidableEq

/-- The state `MessageRecoverySystem` owns or mutates during a forced
recovery: the in-progress flag, the moderation state, the store. -/
structure RecoveryState where
  isRecovering : Bool
  mod : ModState
  db : DbState

/-- Embeds `MessageRecoverySystem.force_recovery` (recovery_system.py 295-440).
Faithful to the control flow, including the `finally` on line 439-440
that sets `is_recovering = False` on *every* exit path — also on the
early `return` taken when another recovery is already in progress. -/
def force_recovery (env : RecoveryEnv) (st : RecoveryState) :
    RecoveryResult × RecoveryState :=
  if st.isRecovering then
    ({ success := false, message := "Восстановление уже выполняется",
       stats := none },
     { st with isRecovering := false })
  else
    -- is_recovering is set to True here; every path below clears it.
    let msgs := env.unprocessed
    if msgs.isEmpty then
      ({ success := true, message := "Нет пропущенных сообщений для обработки",
         stats := none },
       { st with isRecovering := false })
    else
      let out := force_recovery_loop env msgs st.mod st.db
        { processed := 0, spam := 0, errors := 0, skipped := 0 }
      let c := out.2.2
      let entry : RecoveryLogEntry :=
        { recoveryType := "forced_recovery", processedCount := c.processed,
          spamCount := c.spam, totalMessages := msgs.length, success := true,
          errorMessage := none, durationSeconds := env.duration }
      ({ success := true, message := "Принудительное восстановление завершено",
         stats := some
           { total_messages := msgs.length, processed := c.processed,
             spam_detected := c.spam, errors := c.errors,
             skipped := c.skipped,
             success_rate := (c.processed : ℚ) / (msgs.length : ℚ) * 100,
             duration_seconds := env.duration } },
       { isRecovering := false, mod := out.1,
         db := log_recovery out.2.1 entry })

/-! ## Auxiliary lemmas -/

/-- Dropping a prefix never lengthens a list. -/
theorem length_dropWhile_le' (p : Char → Bool) (l : List Char) :
    (l.dropWhile p).length ≤ l.length := by
  induction l with
  | nil => simp [List.dropWhile]
  | cons a t ih =>
    rw [List.dropWhile]
    split
    · exact Nat.le_succ_of_le ih
    · exact Nat.le_refl _

/-- Stripping whitespace never lengthens a string. -/
theorem pyStrip_length_le (l : List Char) : (pyStrip l).length ≤ l.length := by
  unfold pyStrip
  calc ((l.dropWhile pyIsSpace).reverse.dropWhile pyIsSpace).reverse.length
      = ((l.dropWhile pyIsSpace).reverse.dropWhile pyIsSpace).length := by
        rw [List.length_reverse]
    _ ≤ (l.dropWhile pyIsSpace).reverse.length := length_dropWhile_le' _ _
    _ = (l.dropWhile pyIsSpace).length := by rw [List.length_reverse]
    _ ≤ l.length := length_dropWhile_le' _ _

/-- Reading back the sender just written. -/
theorem setUser_self (st : DetectorState) (uid : ℕ) (d : UserData) :
    (st.setUser uid d).userBehavior uid = d := by
  simp [DetectorState.setUser]

/-! ## Claims about the trust model -/

/-- Claim C4: recording a spam verdict decreases a sender's trust score by
20 floored at 0 and increments both the warning and spam counters;
a non-spam verdict increases trust by 1 capped at 100; consequently
repeated non-spam verdicts strictly increase trust while below the cap
and repeated spam verdicts strictly decrease it while above the floor. -/
theorem trust_update_rules (st : DetectorState) (uid : ℕ) :
    ((update_user_trust_score uid true st).userBehavior uid).trust_score
        = max 0 ((st.userBehavior uid).trust_score - 20) ∧
    ((update_user_trust_score uid true st).userBehavior uid).spam_count
        = (st.userBehavior uid).spam_count + 1 ∧
    ((update_user_trust_score uid true st).userBehavior uid).warning_count
        = (st.userBehavior uid).warning_count + 1 ∧
    ((update_user_trust_score uid false st).userBehavior uid).trust_score
        = min 100 ((st.userBehavior uid).trust_score + 1) ∧
    (0 < (st.userBehavior uid).trust_score →
      ((update_user_trust_score uid true st).userBehavior uid).trust_score
        < (st.userBehavior uid).trust_score) ∧
    ((st.userBehavior uid).trust_score < 100 →
      (st.userBehavior uid).trust_score
        < ((update_user_trust_score uid false st).userBehavior uid).trust_score) ∧
    0 ≤ ((update_user_trust_score uid true st).userBehavior uid).trust_score ∧
    ((update_user_trust_score uid false st).userBehavior uid).trust_score ≤ 100 := by
  have ht : (update_user_trust_score uid true st).userBehavior uid
      = { st.userBehavior uid with
            spam_count := (st.userBehavior uid).spam_count + 1,
            trust_score := max 0 ((st.userBehavior uid).trust_score - 20),
            warning_count := (st.userBehavior uid).warning_count + 1 } := by
    rw [update_user_trust_score, if_pos rfl, setUser_self]
  have hf : (update_user_trust_score uid false st).userBehavior uid
      = { st.userBehavior uid with
            trust_score := min 100 ((st.userBehavior uid).trust_score + 1) } := by
    rw [update_user_trust_score, if_neg (by simp), setUser_self]
  rw [ht, hf]
  refine ⟨rfl, rfl, rfl, rfl, ?_, ?_, ?_, ?_⟩ <;> simp

/-- Claim C4 witness: a default sender (trust 50) strictly loses trust on
a spam verdict and strictly gains trust on a clean one. -/
theorem trust_update_rules_witness :
    (0 < (DetectorState.initial.userBehavior 0).trust_score ∧
      ((update_user_trust_score 0 true DetectorState.initial).userBehavior 0).trust_score
        < (DetectorState.initial.userBehavior 0).trust_score) ∧
    ((DetectorState.initial.userBehavior 0).trust_score < 100 ∧
      (DetectorState.initial.userBehavior 0).trust_score
        < ((update_user_trust_score 0 false DetectorState.initial).userBehavior 0).trust_score) := by
  have h := trust_update_rules DetectorState.initial 0
  exact ⟨⟨of_decide_eq_true (by with_unfolding_all rfl),
          h.2.2.2.2.1 (of_decide_eq_true (by with_unfolding_all rfl))⟩,
         ⟨of_decide_eq_true (by with_unfolding_all rfl),
          h.2.2.2.2.2.1 (of_decide_eq_true (by with_unfolding_all rfl))⟩⟩

/-- Claim C5 counterexample: a sender with trust score 75 — tier
`neutral`, not `trusted` — and a normal 60-second gap receives −1, where
the claim requires 0: the bonus branch tests `trust_score > 70`, not the
`trusted` tier. -/
theorem behavioral_bonus_counterexample :
    (behavioral_analysis 1 60 (DetectorState.initial.setUser 1
      { defaultUserData with trust_score := 75, last_activity := some 0 })).1
      = -1 ∧
    get_user_trust_level 1 (DetectorState.initial.setUser 1
      { defaultUserData with trust_score := 75, last_activity := some 0 })
      = "neutral" := by
  exact ⟨by with_unfolding_all rfl, by with_unfolding_all rfl⟩

/-- Claim C5 as amended: for a sender with prior recorded activity,
the behaviour score is +2 for a gap under 10 s, +1 for a gap in
[10 s, 30 s), −1 for a normal gap when the sender's trust score is
strictly above 70 (which includes every `trusted`-tier sender), and 0
for a normal gap at trust 70 or below. -/
theorem behavioral_analysis_rules (uid : ℕ) (now last : ℚ)
    (st : DetectorState)
    (h : (st.userBehavior uid).last_activity = some last) :
    (now - last < 10 → (behavioral_analysis uid now st).1 = 2) ∧
    (10 ≤ now - last → now - last < 30 →
      (behavioral_analysis uid now st).1 = 1) ∧
    (30 ≤ now - last → 70 < (st.userBehavior uid).trust_score →
      (behavioral_analysis uid now st).1 = -1) ∧
    (30 ≤ now - last → (st.userBehavior uid).trust_score ≤ 70 →
      (behavioral_analysis uid now st).1 = 0) := by
  rw [behavioral_analysis, h]
  dsimp only
  refine ⟨?_, ?_, ?_, ?_⟩
  · intro h1
    rw [if_pos h1]
  · intro h1 h2
    rw [if_neg (by linarith), if_pos h2]
  · intro h1 h2
    rw [if_neg (by linarith), if_neg (by linarith), if_pos h2]
  · intro h1 h2
    rw [if_neg (by linarith), if_neg (by linarith), if_neg (by linarith)]

/-- Claim C5 witness: a sender who wrote 5 seconds ago is scored +2. -/
theorem behavioral_analysis_rules_witness :
    ((DetectorState.initial.setUser 1
        { defaultUserData with last_activity := some 0 }).userBehavior 1).last_activity
      = some 0 ∧
    (behavioral_analysis 1 5 (DetectorState.initial.setUser 1
      { defaultUserData with last_activity := some 0 })).1 = 2 := by
  refine ⟨by with_unfolding_all rfl, ?_⟩
  exact (behavioral_analysis_rules 1 5 0 _ (by with_unfolding_all rfl)).1
    (of_decide_eq_true (by with_unfolding_all rfl))

/-! ## Claims about the moderation entry point -/

/-- Claim C8: a message whose body is empty or under 2 characters is
resolved to the safe default verdict `(not spam, score 0)`; the total
function raises nothing. -/
theorem trivial_reject (ai : Bool) (text : List Char) (uid : ℕ) (now : ℚ)
    (st : ModState) (h : text.length < 2) :
    (advanced_spam_check ai text uid now st).1 = (false, 0) := by
  have hs : (pyStrip text).length < 2 :=
    Nat.lt_of_le_of_lt (pyStrip_length_le text) h
  rw [advanced_spam_check]
  rw [if_pos (by simp [hs])]

/-- Claim C8 witness: the one-character message `"a"`. -/
theorem trivial_reject_witness :
    "a".toList.length < 2 ∧
    (advanced_spam_check false "a".toList 7 0 ModState.initial).1
      = (false, 0) := by
  refine ⟨by decide, ?_⟩
  exact trivial_reject false "a".toList 7 0 ModState.initial (by decide)

/-- Claim C10: the trivial-reject path returns before the behavioural
analysis and the trust update, so a message of fewer than 2 characters
leaves the sender's entire trust state — trust score, message count,
spam count, warning count, last activity — untouched. -/
theorem trivial_reject_frame (ai : Bool) (text : List Char) (uid : ℕ)
    (now : ℚ) (st : ModState) (h : text.length < 2) :
    (advanced_spam_check ai text uid now st).2.detector = st.detector ∧
    ((advanced_spam_check ai text uid now st).2.detector.userBehavior uid).trust_score
      = (st.detector.userBehavior uid).trust_score ∧
    ((advanced_spam_check ai text uid now st).2.detector.userBehavior uid).message_count
      = (st.detector.userBehavior uid).message_count ∧
    ((advanced_spam_check ai text uid now st).2.detector.userBehavior uid).spam_count
      = (st.detector.userBehavior uid).spam_count ∧
    ((advanced_spam_check ai text uid now st).2.detector.userBehavior uid).warning_count
      = (st.detector.userBehavior uid).warning_count ∧
    ((advanced_spam_check ai text uid now st).2.detector.userBehavior uid).last_activity
      = (st.detector.userBehavior uid).last_activity := by
  have hs : (pyStrip text).length < 2 :=
    Nat.lt_of_le_of_lt (pyStrip_length_le text) h
  have hd : (advanced_spam_check ai text uid now st).2.detector = st.detector := by
    rw [advanced_spam_check]
    rw [if_pos (by simp [hs])]
  exact ⟨hd, by rw [hd], by rw [hd], by rw [hd], by rw [hd], by rw [hd]⟩

/-- Claim C10 witness: the empty message leaves a sender's state alone. -/
theorem trivial_reject_frame_witness :
    ([] : List Char).length < 2 ∧
    (advanced_spam_check true [] 3 0 ModState.initial).2.detector.userBehavior 3
      = ModState.initial.detector.userBehavior 3 := by
  refine ⟨by decide, ?_⟩
  have h := trivial_reject_frame true [] 3 0 ModState.initial (by decide)
  rw [h.1]

/-! ## Claim about the rate limiter -/

/-- Evaluating `check_limit` at a moment where every stored timestamp is still
inside the 60-second window: nothing is pruned. -/
theorem check_limit_keep (now : ℚ) (l : List ℚ)
    (hl : ∀ t ∈ l, now - 60 < t) :
    check_limit now l = (decide (l.length < USER_RATE_LIMIT), l) := by
  unfold check_limit
  have hf : l.filter (fun t => decide (now - 60 < t)) = l := by
    rw [List.filter_eq_self]
    intro a ha
    exact decide_eq_true (hl a ha)
  rw [hf]

/-- Evaluating `check_limit` at a moment where every stored timestamp has left the
60-second window: everything is pruned and the sender is admitted. -/
theorem check_limit_expire (now : ℚ) (l : List ℚ)
    (hl : ∀ t ∈ l, ¬(now - 60 < t)) :
    check_limit now l = (true, []) := by
  unfold check_limit
  have hf : l.filter (fun t => decide (now - 60 < t)) = [] := by
    rw [List.filter_eq_nil_iff]
    intro a ha
    simpa using hl a ha
  rw [hf]
  rfl

/-- Claim C7: with the configured limit `USER_RATE_LIMIT = 5`, a burst of
5 messages inside one 60-second window is fully admitted (each admission
check before each recording succeeds and prunes nothing), the 6th
admission check within the window is refused, and once every recorded
timestamp is more than 60 seconds old the admission check succeeds
again. -/
theorem rate_limiter_window (t0 t1 t2 t3 t4 t5 T : ℚ)
    (h01 : t0 ≤ t1) (h12 : t1 ≤ t2) (h23 : t2 ≤ t3) (h34 : t3 ≤ t4)
    (h45 : t4 ≤ t5) (hwin : t5 - t0 < 60)
    (hold : ∀ t ∈ [t0, t1, t2, t3, t4], 60 < T - t) :
    USER_RATE_LIMIT = 5 ∧
    check_limit t0 [] = (true, []) ∧
    record_message t0 [] = [t0] ∧
    check_limit t1 [t0] = (true, [t0]) ∧
    record_message t1 [t0] = [t0, t1] ∧
    check_limit t2 [t0, t1] = (true, [t0, t1]) ∧
    record_message t2 [t0, t1] = [t0, t1, t2] ∧
    check_limit t3 [t0, t1, t2] = (true, [t0, t1, t2]) ∧
    record_message t3 [t0, t1, t2] = [t0, t1, t2, t3] ∧
    check_limit t4 [t0, t1, t2, t3] = (true, [t0, t1, t2, t3]) ∧
    record_message t4 [t0, t1, t2, t3] = [t0, t1, t2, t3, t4] ∧
    (check_limit t5 [t0, t1, t2, t3, t4]).1 = false ∧
    (check_limit T [t0, t1, t2, t3, t4]).1 = true := by
  have hmem : ∀ t ∈ [t0, t1, t2, t3, t4], t0 ≤ t ∧ t ≤ t4 := by
    intro t ht
    simp only [List.mem_cons, List.mem_singleton, List.not_mem_nil] at ht
    rcases ht with rfl | rfl | rfl | rfl | rfl | h
    · exact ⟨le_refl _, by linarith⟩
    · exact ⟨h01, by linarith⟩
    · exact ⟨by linarith, by linarith⟩
    · exact ⟨by linarith, h34⟩
    · exact ⟨by linarith, le_refl _⟩
    · cases h
  refine ⟨rfl, ?_, rfl, ?_, rfl, ?_, rfl, ?_, rfl, ?_, rfl, ?_, ?_⟩
  · exact check_limit_keep t0 [] (by intro t ht; cases ht)
  · refine check_limit_keep t1 [t0] ?_
    intro t ht
    simp only [List.mem_cons, List.not_mem_nil, or_false] at ht
    subst ht; linarith
  · refine check_limit_keep t2 [t0, t1] ?_
    intro t ht
    simp only [List.mem_cons, List.not_mem_nil, or_false] at ht
    rcases ht with rfl | rfl <;> linarith
  · refine check_limit_keep t3 [t0, t1, t2] ?_
    intro t ht
    simp only [List.mem_cons, List.not_mem_nil, or_false] at ht
    rcases ht with rfl | rfl | rfl <;> linarith
  · refine check_limit_keep t4 [t0, t1, t2, t3] ?_
    intro t ht
    simp only [List.mem_cons, List.not_mem_nil, or_false] at ht
    rcases ht with rfl | rfl | rfl | rfl <;> linarith
  · have h5 := check_limit_keep t5 [t0, t1, t2, t3, t4] ?keep
    · rw [h5]
      rfl
    case keep =>
      intro t ht
      have := hmem t ht
      linarith
  · have hT := check_limit_expire T [t0, t1, t2, t3, t4] ?expire
    · rw [hT]
    case expire =>
      intro t ht
      have := hold t ht
      linarith

/-- Claim C7 witness: the burst at seconds 0-5 with the re-check at
second 100. -/
theorem rate_limiter_window_witness :
    (check_limit 5 [0, 1, 2, 3, 4] : Bool × List ℚ).1 = false ∧
    (check_limit 100 [0, 1, 2, 3, 4] : Bool × List ℚ).1 = true := by
  have h := rate_limiter_window 0 1 2 3 4 5 100
    (by norm_num) (by norm_num) (by norm_num) (by norm_num) (by norm_num)
    (by norm_num)
    (by intro t ht
        simp only [List.mem_cons, List.mem_singleton, List.not_mem_nil] at ht
        rcases ht with rfl | rfl | rfl | rfl | rfl | hf
        · norm_num
        · norm_num
        · norm_num
        · norm_num
        · norm_num
        · cases hf)
  exact ⟨h.2.2.2.2.2.2.2.2.2.2.2.1, h.2.2.2.2.2.2.2.2.2.2.2.2⟩

/-- Counter `ai_checks` is untouched by the spam-detected bookkeeping. -/
theorem aiChecks_spam_bookkeeping (c : Prop) [Decidable c] (s : ModStats) :
    (if c then { s with spam_detected := s.spam_detected + 1 } else s).ai_checks
      = s.ai_checks := by
  split <;> rfl

/-- Claim C6: on a non-trivial message the external classifier is
consulted exactly when the pre-escalation total lies in the closed band
[2.0, 4.0] (so totals of exactly 2.0 and 4.0 consult it, 1.99 and 4.01
do not), and a spam verdict from the classifier forces `is_spam = true`
and lifts the returned total to at least 4.1. -/
theorem tie_break_band (ai : Bool) (text : List Char) (uid : ℕ) (now : ℚ)
    (st : ModState)
    (h : (text.isEmpty || decide ((pyStrip text).length < 2)) = false) :
    ((advanced_spam_check ai text uid now st).2.stats.ai_checks
      = st.stats.ai_checks +
        (if 2 ≤ pre_total_score text uid now st ∧
            pre_total_score text uid now st ≤ 4 then 1 else 0)) ∧
    ((2 ≤ pre_total_score text uid now st ∧
        pre_total_score text uid now st ≤ 4) → ai = true →
      (advanced_spam_check ai text uid now st).1.1 = true ∧
      (41/10 : ℚ) ≤ (advanced_spam_check ai text uid now st).1.2) := by
  rw [advanced_spam_check, if_neg (by simp [h])]
  dsimp only
  constructor
  · rw [aiChecks_spam_bookkeeping]
    by_cases hband : 2 ≤ pre_total_score text uid now st ∧
        pre_total_score text uid now st ≤ 4
    · rw [if_pos hband,
        decide_eq_true hband.1, decide_eq_true hband.2]
      rfl
    · rw [if_neg hband]
      rcases not_and_or.mp hband with hb | hb
      · rw [decide_eq_false hb]
        rfl
      · rw [decide_eq_false hb]
        cases hd : decide (2 ≤ pre_total_score text uid now st) <;> rfl
  · intro hband hai
    subst hai
    rw [decide_eq_true hband.1, decide_eq_true hband.2]
    exact ⟨rfl, le_max_right _ _⟩

/-- Claim C6 witness: `"казино казино казино"` from a fresh sender has
pre-escalation total exactly 2.0, sits on the band boundary, consults
the classifier, and a spam verdict escalates to `(true, 4.1)`. -/
theorem tie_break_band_witness :
    ("казино казино казино".toList.isEmpty ||
      decide ((pyStrip "казино казино казино".toList).length < 2)) = false ∧
    pre_total_score "казино казино казино".toList 1 0 ModState.initial = 2 ∧
    (advanced_spam_check true "казино казино казино".toList 1 0
        ModState.initial).2.stats.ai_checks
      = ModState.initial.stats.ai_checks +
        (if 2 ≤ pre_total_score "казино казино казино".toList 1 0 ModState.initial ∧
            pre_total_score "казино казино казино".toList 1 0 ModState.initial ≤ 4
         then 1 else 0) ∧
    (advanced_spam_check true "казино казино казино".toList 1 0
        ModState.initial).1.1 = true ∧
    (41/10 : ℚ) ≤ (advanced_spam_check true "казино казино казино".toList 1 0
        ModState.initial).1.2 := by
  have hcond : ("казино казино казино".toList.isEmpty ||
      decide ((pyStrip "казино казино казино".toList).length < 2)) = false := by
    with_unfolding_all rfl
  have htotal : pre_total_score "казино казино казино".toList 1 0
      ModState.initial = 2 := by
    with_unfolding_all rfl
  have hband : 2 ≤ pre_total_score "казино казино казино".toList 1 0
        ModState.initial ∧
      pre_total_score "казино казино казино".toList 1 0 ModState.initial ≤ 4 := by
    rw [htotal]
    exact ⟨le_refl _, by norm_num⟩
  have h := tie_break_band true "казино казино казино".toList 1 0
    ModState.initial hcond
  exact ⟨hcond, htotal, h.1, h.2 hband rfl⟩

/-- Claim C1 counterexample: for a sender in the default trust state, the
message `"Купите дешево!!! http://x.co"` is NOT judged spam — the
commerce rule lists the infinitive `купить`, which does not occur in
`купите`, so only the link rule (2) and the repeated-`!` rule (0.5)
match, and the combined total stays below the neutral threshold. -/
theorem default_sender_scenario_counterexample :
    (advanced_spam_check true "Купите дешево!!! http://x.co".toList 1 0
      ModState.initial).1.1 = false := by
  with_unfolding_all rfl

/-- Claim C1 as amended: for a sender with default trust state, the
message `"Купите дешево!!! http://x.co"` scores pattern 2.5 and metrics
2, giving total 1.7 — below the neutral threshold 3.0 and outside the
classifier band, so the classifier is never consulted — the verdict is
`spam = false`, and the sender's trust score rises to 51. -/
theorem default_sender_scenario :
    pattern_based_analysis "Купите дешево!!! http://x.co".toList = 5/2 ∧
    get_user_trust_level 1 ModState.initial.detector = "neutral" ∧
    (advanced_spam_check true "Купите дешево!!! http://x.co".toList 1 0
      ModState.initial).1 = (false, 17/10) ∧
    (advanced_spam_check true "Купите дешево!!! http://x.co".toList 1 0
      ModState.initial).2.stats.ai_checks = 0 ∧
    ((advanced_spam_check true "Купите дешево!!! http://x.co".toList 1 0
      ModState.initial).2.detector.userBehavior 1).trust_score = 51 := by
  refine ⟨?_, ?_, ?_, ?_, ?_⟩ <;> with_unfolding_all rfl

/-! ## Claims about the recovery subsystem -/

/-- A fresh (unprocessed) candidate row used by the concrete recovery
scenarios. -/
def sampleSpamRow : MsgRow :=
  { msgId := 1, userId := 1, text := "казино казино казино".toList,
    username := none, isSpamField := none, responseText := none,
    spamScore := none }

/-- A concrete recovery environment: one fresh candidate, a classifier
that says spam, and a delivery channel that always fails transiently. -/
def sampleEnv : RecoveryEnv :=
  { unprocessed := [sampleSpamRow],
    generateReply := fun _ _ => "Спасибо за интересный вопрос!".toList,
    send := fun _ _ => SendResult.otherError,
    ai := true, now := 0, duration := 7 }

/-- The recovery system at rest, with the candidate in the store. -/
def idleState : RecoveryState :=
  { isRecovering := false, mod := ModState.initial,
    db := { rows := [sampleSpamRow], recoveryLog := [] } }

/-- The recovery system while another recovery run is in progress. -/
def busyState : RecoveryState :=
  { isRecovering := true, mod := ModState.initial,
    db := { rows := [sampleSpamRow], recoveryLog := [] } }

/-- Claim C3: calling `force_recovery` while a recovery is in progress is
refused — non-success result, no candidate touched, nothing logged — but
the `finally` of recovery_system.py line 439-440 runs even on this early
return and resets `is_recovering` to `False`, clearing the flag of the
recovery that is still running instead of leaving it set. -/
theorem force_recovery_busy_clears_flag :
    busyState.isRecovering = true ∧
    (force_recovery sampleEnv busyState).1.success = false ∧
    (force_recovery sampleEnv busyState).2.db = busyState.db ∧
    (force_recovery sampleEnv busyState).2.isRecovering = false := by
  exact ⟨rfl, rfl, rfl, rfl⟩

/-- Claim C2 counterexample: a transiently failing delivery is not
retried.  With a channel whose first attempt fails with a network-class
error and whose second attempt would succeed, `_try_send_reply` makes
exactly one attempt and reports failure. -/
theorem try_send_no_retry_counterexample :
    try_send_reply
      (fun n => if n = 0 then SendResult.otherError else SendResult.success)
      = (false, 1) ∧
    (fun n => if n = 0 then SendResult.otherError else SendResult.success) 1
      = SendResult.success := by
  exact ⟨rfl, rfl⟩

/-- A marked row reads back as processed. -/
theorem mark_rows_isSome (db : DbState) (id : ℕ) (b : Bool)
    (resp : List Char) (score : ℚ) :
    ∀ row ∈ (mark_message_processed db id b resp score).rows,
      row.msgId = id → row.isSpamField.isSome = true := by
  intro row hrow hid
  simp only [mark_message_processed, List.mem_map] at hrow
  obtain ⟨orig, _, hf⟩ := hrow
  by_cases h : orig.msgId = id
  · rw [if_pos h] at hf
    rw [← hf]
    rfl
  · rw [if_neg h] at hf
    rw [← hf] at hid
    exact absurd hid h

/-- Processing one fresh candidate always persists a verdict for it:
the loop's store update is a `mark_message_processed` on that row's id,
whichever branch runs. -/
theorem loop_single_fresh (env : RecoveryEnv) (mod : ModState)
    (db : DbState) (c : RunCounts) (r : MsgRow)
    (h3 : r.isSpamField = none) (h4 : r.responseText = none) :
    ∃ b resp score,
      (force_recovery_loop env [r] mod db c).2.1
        = mark_message_processed db r.msgId b resp score := by
  rw [force_recovery_loop]
  rw [h3, h4]
  simp only [Option.isSome_none, Bool.false_eq_true, if_false]
  cases hspam : (advanced_spam_check env.ai r.text r.userId env.now mod).1.1
  · rw [if_neg Bool.false_ne_true]
    cases hsend : (try_send_reply (env.send r.msgId)).1
    · rw [if_neg Bool.false_ne_true]
      exact ⟨_, _, _, rfl⟩
    · rw [if_pos rfl]
      exact ⟨_, _, _, rfl⟩
  · rw [if_pos rfl]
    exact ⟨_, _, _, rfl⟩

/-- Outside the refusal and empty-candidates paths, the store rows the
run leaves behind are exactly the loop's. -/
theorem force_recovery_rows (env : RecoveryEnv) (st : RecoveryState)
    (h1 : st.isRecovering = false) (h2 : env.unprocessed.isEmpty = false) :
    (force_recovery env st).2.db.rows
      = (force_recovery_loop env env.unprocessed st.mod st.db
          { processed := 0, spam := 0, errors := 0, skipped := 0 }).2.1.rows := by
  rw [force_recovery]
  rw [if_neg (by rw [h1]; exact Bool.false_ne_true)]
  dsimp only
  rw [if_neg (by rw [h2]; exact Bool.false_ne_true)]
  rfl

/-- Claim C2 as amended: `_try_send_reply` makes exactly one delivery
attempt and succeeds iff that attempt does — neither the permanent
(`Forbidden`) class nor the transient class is retried — and a recovery
run persists a verdict for a fresh candidate before delivery is
attempted, so the message is resolved whatever the delivery outcome. -/
theorem delivery_single_attempt_resolved (oracle : ℕ → SendResult)
    (env : RecoveryEnv) (st : RecoveryState) (r : MsgRow)
    (h1 : st.isRecovering = false) (h2 : env.unprocessed = [r])
    (h3 : r.isSpamField = none) (h4 : r.responseText = none) :
    (try_send_reply oracle).2 = 1 ∧
    ((try_send_reply oracle).1 = true ↔ oracle 0 = SendResult.success) ∧
    (∀ row ∈ (force_recovery env st).2.db.rows,
      row.msgId = r.msgId → row.isSpamField.isSome = true) := by
  refine ⟨?_, ?_, ?_⟩
  · cases h0 : oracle 0 <;> simp [try_send_reply, h0]
  · cases h0 : oracle 0 <;> simp [try_send_reply, h0]
  · have hrows := force_recovery_rows env st h1 (by rw [h2]; rfl)
    rw [h2] at hrows
    obtain ⟨b, resp, score, heq⟩ :=
      loop_single_fresh env st.mod st.db
        { processed := 0, spam := 0, errors := 0, skipped := 0 } r h3 h4
    rw [hrows, heq]
    exact mark_rows_isSome st.db r.msgId b resp score

/-- Claim C2 witness: the concrete environment whose delivery channel
always fails transiently still ends with its single candidate marked
processed, after exactly one attempt. -/
theorem delivery_single_attempt_resolved_witness :
    (try_send_reply (fun _ => SendResult.otherError)).2 = 1 ∧
    (∀ row ∈ (force_recovery sampleEnv idleState).2.db.rows,
      row.msgId = sampleSpamRow.msgId → row.isSpamField.isSome = true) := by
  have h := delivery_single_attempt_resolved (fun _ => SendResult.otherError)
    sampleEnv idleState sampleSpamRow rfl rfl rfl rfl
  exact ⟨h.1, h.2.2⟩

/-- Claim C9 counterexample: the audit record written by a completed
forced run has trigger kind `forced_recovery` (the startup/periodic path
writes `auto_recovery`), which is none of `startup`, `periodic`,
`forced`; the record also carries no errors or skipped fields at all. -/
theorem recovery_log_trigger_counterexample :
    (force_recovery sampleEnv idleState).2.db.recoveryLog
      = [{ recoveryType := "forced_recovery", processedCount := 0,
           spamCount := 1, totalMessages := 1, success := true,
           errorMessage := none, durationSeconds := 7 }] ∧
    "forced_recovery" ∉ (["startup", "periodic", "forced"] : List String) := by
  constructor
  · with_unfolding_all rfl
  · simp

/-- The recovery loop never writes to the audit log; only the run's
completion does, via `log_recovery`. -/
theorem loop_preserves_log (env : RecoveryEnv) :
    ∀ (msgs : List MsgRow) (mod : ModState) (db : DbState) (c : RunCounts),
      (force_recovery_loop env msgs mod db c).2.1.recoveryLog
        = db.recoveryLog := by
  intro msgs
  induction msgs with
  | nil => intro mod db c; rfl
  | cons m rest ih =>
    intro mod db c
    rw [force_recovery_loop]
    split
    · exact ih _ _ _
    · split
      · exact ih _ _ _
      · dsimp only
        split
        · exact ih _ _ _
        · split
          · exact ih _ _ _
          · exact ih _ _ _

/-- Claim C9 as amended: on completion a run appends exactly one audit
record carrying the run's processed count, spam count, total-candidate
count, success flag and duration, with trigger kind `forced_recovery`
(`auto_recovery` on the startup/periodic path); the errors and skipped
counters are computed and returned in the run's result but are not part
of the logged record. -/
theorem recovery_log_contents (env : RecoveryEnv) (st : RecoveryState)
    (h1 : st.isRecovering = false) (h2 : env.unprocessed.isEmpty = false) :
    (force_recovery env st).2.db.recoveryLog
      = st.db.recoveryLog ++
        [{ recoveryType := "forced_recovery",
           processedCount := (force_recovery_loop env env.unprocessed st.mod
             st.db { processed := 0, spam := 0, errors := 0, skipped := 0 }).2.2.processed,
           spamCount := (force_recovery_loop env env.unprocessed st.mod
             st.db { processed := 0, spam := 0, errors := 0, skipped := 0 }).2.2.spam,
           totalMessages := env.unprocessed.length,
           success := true, errorMessage := none,
           durationSeconds := env.duration }] ∧
    (force_recovery env st).1.success = true ∧
    (force_recovery env st).1.stats
      = some
        { total_messages := env.unprocessed.length,
          processed := (force_recovery_loop env env.unprocessed st.mod
            st.db { processed := 0, spam := 0, errors := 0, skipped := 0 }).2.2.processed,
          spam_detected := (force_recovery_loop env env.unprocessed st.mod
            st.db { processed := 0, spam := 0, errors := 0, skipped := 0 }).2.2.spam,
          errors := (force_recovery_loop env env.unprocessed st.mod
            st.db { processed := 0, spam := 0, errors := 0, skipped := 0 }).2.2.errors,
          skipped := (force_recovery_loop env env.unprocessed st.mod
            st.db { processed := 0, spam := 0, errors := 0, skipped := 0 }).2.2.skipped,
          success_rate := ((force_recovery_loop env env.unprocessed st.mod
            st.db { processed := 0, spam := 0, errors := 0, skipped := 0 }).2.2.processed : ℚ)
            / (env.unprocessed.length : ℚ) * 100,
          duration_seconds := env.duration } := by
  rw [force_recovery]
  rw [if_neg (by rw [h1]; exact Bool.false_ne_true)]
  dsimp only
  rw [if_neg (by rw [h2]; exact Bool.false_ne_true)]
  dsimp only [log_recovery]
  refine ⟨?_, rfl, rfl⟩
  rw [loop_preserves_log env env.unprocessed st.mod st.db
    { processed := 0, spam := 0, errors := 0, skipped := 0 }]

/-- Claim C9 witness: the concrete one-candidate forced run, whose
logged record shows processed 0, spam 1, total 1, success, duration 7. -/
theorem recovery_log_contents_witness :
    idleState.isRecovering = false ∧
    sampleEnv.unprocessed.isEmpty = false ∧
    (force_recovery sampleEnv idleState).1.success = true ∧
    (force_recovery sampleEnv idleState).1.stats
      = some { total_messages := 1, processed := 0, spam_detected := 1,
               errors := 0, skipped := 0, success_rate := 0,
               duration_seconds := 7 } := by
  have h := recovery_log_contents sampleEnv idleState rfl rfl
  refine ⟨rfl, rfl, h.2.1, ?_⟩
  rw [h.2.2]
  with_unfolding_all rfl

end MamaAI
